import Mathlib

/-!
Verification of the Kevio speech-to-text pipeline core.

This file gives a shallow embedding of the Python sources:

* `src/audio_capture.py` — the frame queue (`_audio_callback` append, `read_chunk` pop);
* `src/vad.py` — `VoiceActivityDetector` (energy-gate classifier) and `AudioBuffer`
  (bounded rolling ring of frames);
* `src/main.py` — `SpeechToTextAgent` lifecycle (`start`/`stop`/`pause`/`resume`/`toggle`)
  and the `_process_audio` endpointing loop;
* `src/config.py` — the configuration keys the loop reads.

Machine integers are modelled as `Nat`/`Int`; raw audio bytes as `List Nat`
(each entry a byte value 0–255); the float RMS computation of the detector is
modelled exactly over `ℚ`, with the square-root comparison `sqrt (sumSq / n) > c`
replaced by the equivalent (for `c ≥ 0`, both sides nonnegative) squared
comparison `c^2 * n < sumSq`.
-/

/-- Raw audio bytes, as delivered by the capture callback: a list of byte values. -/
abbrev Chunk := List Nat

/-! ### Frame queue of `AudioCapture` (src/audio_capture.py)

The capture callback appends `bytes(indata)` to `_audio_buffer`; `read_chunk`
pops index 0 if the list is nonempty, else returns `None` without blocking. -/

namespace AudioCaptureQueue

/-- One `_audio_callback` invocation: `self._audio_buffer.append(bytes(indata))`. -/
def push (q : List Chunk) (c : Chunk) : List Chunk := q ++ [c]

/-- `read_chunk`: `self._audio_buffer.pop(0)` when nonempty, otherwise `None`.
Returns the popped frame (if any) together with the remaining queue. -/
def read_chunk : List Chunk → Option Chunk × List Chunk
  | [] => (none, [])
  | x :: xs => (some x, xs)

/-- An interleaving of producer and consumer operations on the queue. -/
inductive CapOp where
  | push (c : Chunk)
  | pop
deriving Repr

/-- Trace state: the live queue plus, in order, every frame a pop has returned. -/
structure CapState where
  queue : List Chunk
  popped : List Chunk
deriving Repr, DecidableEq

/-- Execute one queue operation. -/
def capStep (s : CapState) : CapOp → CapState
  | .push c => { s with queue := push s.queue c }
  | .pop =>
    match read_chunk s.queue with
    | (none, q) => { s with queue := q }
    | (some x, q) => { queue := q, popped := s.popped ++ [x] }

/-- Execute a whole operation trace. -/
def capRun (ops : List CapOp) (s : CapState) : CapState := ops.foldl capStep s

/-- The frames appended by the trace, in order. -/
def pushedOf (ops : List CapOp) : List Chunk :=
  ops.filterMap fun | .push c => some c | .pop => none

end AudioCaptureQueue

/-! ### Voice activity detector (src/vad.py) -/

/-- Decode two little-endian bytes as one signed 16-bit sample
(`np.frombuffer(..., dtype=np.int16)`). -/
def toInt16 (lo hi : Nat) : Int :=
  let v := lo + 256 * hi
  if v < 32768 then (v : Int) else (v : Int) - 65536

/-- Decode a byte chunk into int16 samples; `none` models the `ValueError`
`np.frombuffer` raises on a buffer whose size is not a multiple of 2
(caught by `is_speech` and degraded to `False`). -/
def decodeInt16 : List Nat → Option (List Int)
  | [] => some []
  | [_] => none
  | lo :: hi :: rest => (decodeInt16 rest).map (fun l => toInt16 lo hi :: l)

/-- Sum of the squares of the samples, exactly over `ℚ`
(the summand of `np.mean(audio_data.astype(np.float32) ** 2)`). -/
def sumSquares : List Int → ℚ
  | [] => 0
  | s :: rest => (s : ℚ) ^ 2 + sumSquares rest

/-- Decide `sqrt (sumSq / n) > c`, i.e. `rms > c`, without a square root:
for `c ≥ 0` this is `c^2 * n < sumSq` (multiplying through by `n > 0`);
a negative bound is always exceeded since `rms ≥ 0`. -/
def rmsExceeds (sumSq : ℚ) (n : Nat) (c : ℚ) : Bool :=
  if c < 0 then true else decide (c ^ 2 * (n : ℚ) < sumSq)

/-- State of `VoiceActivityDetector`: the fields `__init__` stores. -/
structure VoiceActivityDetector where
  aggressiveness : Int
  sample_rate : Nat
  threshold : ℚ
deriving Repr, DecidableEq

namespace VoiceActivityDetector

/-- `_adjust_threshold`: overwrite `self.threshold` from the aggressiveness level. -/
def adjust_threshold (v : VoiceActivityDetector) : VoiceActivityDetector :=
  { v with threshold :=
      if v.aggressiveness = 0 then 2 / 1000
      else if v.aggressiveness = 1 then 5 / 1000
      else if v.aggressiveness = 2 then 8 / 1000
      else 1 / 100 }

/-- `__init__(aggressiveness, sample_rate, threshold)`: store the three arguments,
then call `_adjust_threshold`, which overwrites the stored threshold. -/
def init (aggressiveness : Int) (sample_rate : Nat) (threshold : ℚ) :
    VoiceActivityDetector :=
  adjust_threshold
    { aggressiveness := aggressiveness, sample_rate := sample_rate, threshold := threshold }

/-- `is_speech(audio_chunk)`: decode as int16 (any fault → `False`), empty → `False`,
else compare the RMS of the samples against `threshold * 32768`. -/
def is_speech (v : VoiceActivityDetector) (audio_chunk : Chunk) : Bool :=
  match decodeInt16 audio_chunk with
  | none => false
  | some [] => false
  | some samples =>
    rmsExceeds (sumSquares samples) samples.length (v.threshold * 32768)

end VoiceActivityDetector

/-! ### Rolling audio buffer (src/vad.py, class `AudioBuffer`) -/

/-- State of `AudioBuffer`: the retained frames and the capacity computed at
construction (`max_frames = max_duration_ms // 30`). -/
structure AudioBuffer where
  max_duration_ms : Nat
  buffer : List Chunk
  max_frames : Nat
deriving Repr, DecidableEq

namespace AudioBuffer

/-- `__init__(max_duration_ms)`: empty buffer, `max_frames = max_duration_ms // 30`. -/
def init (max_duration_ms : Nat) : AudioBuffer :=
  { max_duration_ms := max_duration_ms, buffer := [], max_frames := max_duration_ms / 30 }

/-- `add(audio_chunk)`: append, then `pop(0)` if length exceeds `max_frames`. -/
def add (b : AudioBuffer) (audio_chunk : Chunk) : AudioBuffer :=
  let l := b.buffer ++ [audio_chunk]
  { b with buffer := if b.max_frames < l.length then l.tail else l }

/-- `get_audio()`: concatenation of the retained frames in order. -/
def get_audio (b : AudioBuffer) : Chunk := b.buffer.flatten

/-- `get_duration_ms()`: frame count times the nominal 30 ms frame duration. -/
def get_duration_ms (b : AudioBuffer) : Nat := b.buffer.length * 30

end AudioBuffer

/-! ### Configuration (src/config.py) and the silence threshold (src/main.py:113) -/

/-- The configuration keys `_process_audio` and `_init_components` read. -/
structure Config where
  silence_timeout_ms : Nat
  chunk_size : Nat
  sample_rate : Nat
deriving Repr, DecidableEq

/-- The silence threshold the code computes (main.py line 113):
`silence_threshold = self.config.get('silence_timeout_ms', 2000) // 64`,
with the per-chunk duration hard-coded as 64 ms. -/
def silenceThresholdCode (c : Config) : Nat := c.silence_timeout_ms / 64

/-- Modelled from the spec: the threshold the spec describes, namely
`silence_timeout_ms / frame_duration_ms` with `frame_duration_ms` derived from
the configured frame size and sample rate (`chunk_size / sample_rate` seconds). -/
def frameDurationMsSpec (c : Config) : Nat := c.chunk_size * 1000 / c.sample_rate

/-- Modelled from the spec: `silence_timeout_ms / frame_duration_ms`. -/
def silenceThresholdSpec (c : Config) : Nat :=
  c.silence_timeout_ms / frameDurationMsSpec c

/-! ### The `_process_audio` endpointing loop (src/main.py lines 110–159)

One loop iteration that actually obtained a chunk is modelled by `processFrame`.
The chunk itself is abstracted into what the loop observes of it: the VAD
verdict `is_speech` and the segment text `accept_chunk` returned for it
(`none` models Python `None`; `accept_chunk` also returns `None` in place of
an empty segment via `text or None`, but the loop's own truthiness test makes
`some ""` and `none` behave identically). The scripted results of successive
`flush_final` calls are threaded as a list, consumed one entry per endpoint;
an exhausted script yields `none`, matching a flush with no pending text. -/

/-- What one pulled chunk contributes to the loop: its VAD classification and
the segment text the recognizer returned for it. -/
structure Frame where
  is_speech : Bool
  segment : Option String
deriving Repr, DecidableEq

/-- The loop's mutable state, plus the observable callback history:
`statuses` records `_notify_status` calls, `emitted` records
`_handle_transcription`/`on_transcription` calls, in order. -/
structure LoopState where
  silenceCount : Nat
  inUtterance : Bool
  accumulated : List String
  statuses : List String
  emitted : List String
deriving Repr, DecidableEq

/-- Fresh loop state at the top of `_process_audio`. -/
def initLoopState : LoopState :=
  { silenceCount := 0, inUtterance := false, accumulated := [], statuses := [], emitted := [] }

/-- Python truthiness append: `if segment_text: accumulated_segments.append(segment_text)`
(both `None` and `""` are falsy). -/
def accumulateSegment (acc : List String) : Option String → List String
  | none => acc
  | some s => if s = "" then acc else acc ++ [s]

/-- Python's `str.strip()`: drop whitespace characters from both ends,
written directly over the string's character list. -/
def pyStrip (s : String) : String :=
  String.mk (((s.data.dropWhile Char.isWhitespace).reverse.dropWhile Char.isWhitespace).reverse)

/-- The endpoint finalization text: append the `flush_final` remainder if truthy,
then `' '.join(accumulated_segments).strip()`. -/
def finalText (acc : List String) (remainder : Option String) : String :=
  pyStrip (String.intercalate " " (accumulateSegment acc remainder))

/-- `_handle_transcription` guarded by the loop's own `if full_text:` test:
the transcription callback fires exactly when the joined text is nonempty. -/
def emitText (emitted : List String) (t : String) : List String :=
  if t = "" then emitted else emitted ++ [t]

/-- One iteration of the `while` body for a successfully pulled chunk
(main.py lines 129–159): run the VAD, feed the recognizer and accumulate a
truthy segment, then either reset the silence run (speech) or advance it and,
at the threshold, finalize the utterance. -/
def processFrame (thr : Nat) : LoopState × List (Option String) → Frame →
    LoopState × List (Option String)
  | (st, flushes), f =>
    let acc := accumulateSegment st.accumulated f.segment
    if f.is_speech then
      ({ st with accumulated := acc, silenceCount := 0, inUtterance := true,
                 statuses := st.statuses ++ ["listening"] }, flushes)
    else if st.inUtterance then
      let cnt := st.silenceCount + 1
      if thr ≤ cnt then
        let remainder := flushes.headD none
        let full := finalText acc remainder
        ({ silenceCount := 0, inUtterance := false, accumulated := [],
           statuses := st.statuses, emitted := emitText st.emitted full }, flushes.tail)
      else
        ({ st with accumulated := acc, silenceCount := cnt }, flushes)
    else
      ({ st with accumulated := acc }, flushes)

/-- Run the loop over a scripted sequence of pulled chunks. -/
def processAudio (thr : Nat) (frames : List Frame)
    (s : LoopState × List (Option String)) : LoopState × List (Option String) :=
  frames.foldl (processFrame thr) s

/-- Whether this iteration reaches the endpoint (non-speech frame, inside an
utterance, silence run meeting the threshold) and so finalizes the utterance. -/
def endpointReached (thr : Nat) (st : LoopState) (f : Frame) : Bool :=
  !f.is_speech && st.inUtterance && decide (thr ≤ st.silenceCount + 1)

/-! ### Agent lifecycle (src/main.py lines 36–88) -/

/-- The observable lifecycle state of `SpeechToTextAgent`, with the capture
device flag of its `AudioCapture` and the history of status notifications. -/
structure Agent where
  is_running : Bool
  is_listening : Bool
  capRecording : Bool
  statuses : List String
deriving Repr, DecidableEq

namespace Agent

/-- Agent as constructed: stopped, no capture, no notifications yet. -/
def initial : Agent :=
  { is_running := false, is_listening := false, capRecording := false, statuses := [] }

/-- `start()` (success path): no-op if already running, else open capture,
set flags, spawn the loop thread, notify "listening". -/
def start (a : Agent) : Agent :=
  if a.is_running then a
  else { a with capRecording := true, is_running := true, is_listening := true,
                statuses := a.statuses ++ ["listening"] }

/-- `AudioCapture.stop()`: returns immediately when not recording, else closes
the stream; in both cases the device ends up not recording. -/
def capStop (a : Agent) : Agent :=
  if a.capRecording then { a with capRecording := false } else a

/-- `SpeechToTextAgent.stop()`: clear both flags, join the loop thread, stop
capture, then unconditionally notify "stopped". -/
def stop (a : Agent) : Agent :=
  let a1 := { a with is_running := false, is_listening := false }
  let a2 := capStop a1
  { a2 with statuses := a2.statuses ++ ["stopped"] }

/-- `pause()`: clear the listening flag and notify "paused". -/
def pause (a : Agent) : Agent :=
  { a with is_listening := false, statuses := a.statuses ++ ["paused"] }

/-- `resume()`: set the listening flag and notify "listening". -/
def resume (a : Agent) : Agent :=
  { a with is_listening := true, statuses := a.statuses ++ ["listening"] }

/-- `toggle()`: pause/resume while running, otherwise start. -/
def toggle (a : Agent) : Agent :=
  if a.is_running then (if a.is_listening then a.pause else a.resume) else a.start

end Agent

/-! ### Lemmas about single loop iterations -/

theorem processFrame_speech (thr c : Nat) (u : Bool) (acc sts em : List String)
    (fl : List (Option String)) (seg : Option String) :
    processFrame thr (⟨c, u, acc, sts, em⟩, fl) ⟨true, seg⟩
      = (⟨0, true, accumulateSegment acc seg, sts ++ ["listening"], em⟩, fl) := rfl

theorem processFrame_silent_idle (thr c : Nat) (acc sts em : List String)
    (fl : List (Option String)) (seg : Option String) :
    processFrame thr (⟨c, false, acc, sts, em⟩, fl) ⟨false, seg⟩
      = (⟨c, false, accumulateSegment acc seg, sts, em⟩, fl) := rfl

theorem processFrame_silent_cont (thr c : Nat) (acc sts em : List String)
    (fl : List (Option String)) (seg : Option String) (h : c + 1 < thr) :
    processFrame thr (⟨c, true, acc, sts, em⟩, fl) ⟨false, seg⟩
      = (⟨c + 1, true, accumulateSegment acc seg, sts, em⟩, fl) := by
  simp [processFrame, show ¬(thr ≤ c + 1) from by omega]

theorem processFrame_silent_final (thr c : Nat) (acc sts em : List String)
    (f : Option String) (fl : List (Option String)) (seg : Option String)
    (h : thr ≤ c + 1) :
    processFrame thr (⟨c, true, acc, sts, em⟩, f :: fl) ⟨false, seg⟩
      = (⟨0, false, [], sts, emitText em (finalText (accumulateSegment acc seg) f)⟩, fl) := by
  simp [processFrame, h]

theorem processAudio_nil (thr : Nat) (s : LoopState × List (Option String)) :
    processAudio thr [] s = s := rfl

theorem processAudio_cons (thr : Nat) (f : Frame) (fs : List Frame)
    (s : LoopState × List (Option String)) :
    processAudio thr (f :: fs) s = processAudio thr fs (processFrame thr s f) := rfl

theorem processAudio_append (thr : Nat) (l₁ l₂ : List Frame)
    (s : LoopState × List (Option String)) :
    processAudio thr (l₁ ++ l₂) s = processAudio thr l₂ (processAudio thr l₁ s) := by
  simp [processAudio, List.foldl_append]

/-- Running any number of speech frames carrying no segment from an active-utterance
state with empty silence run: the accumulator is untouched, and each frame
notifies "listening". -/
theorem run_speech_active (thr : Nat) (n : Nat) (acc sts em : List String)
    (fl : List (Option String)) :
    processAudio thr (List.replicate n ⟨true, none⟩) (⟨0, true, acc, sts, em⟩, fl)
      = (⟨0, true, acc, sts ++ List.replicate n "listening", em⟩, fl) := by
  induction n generalizing sts with
  | zero => simp [processAudio]
  | succ n ih =>
    rw [List.replicate_succ, processAudio_cons, processFrame_speech]
    rw [show accumulateSegment acc none = acc from rfl, ih]
    simp [List.replicate_succ]

/-- Running speech frames (no segments) from an arbitrary loop state: with at
least one frame, the silence run resets and the utterance becomes active. -/
theorem run_speech (thr : Nat) (n c : Nat) (u : Bool) (acc sts em : List String)
    (fl : List (Option String)) :
    processAudio thr (List.replicate (n + 1) ⟨true, none⟩) (⟨c, u, acc, sts, em⟩, fl)
      = (⟨0, true, acc, sts ++ List.replicate (n + 1) "listening", em⟩, fl) := by
  rw [List.replicate_succ, processAudio_cons, processFrame_speech]
  rw [show accumulateSegment acc none = acc from rfl, run_speech_active]
  simp [List.replicate_succ]

/-- Running silent frames (no segments) that stay strictly below the threshold:
the silence run just advances. -/
theorem run_silent_pre (thr : Nat) (m c : Nat) (acc sts em : List String)
    (fl : List (Option String)) (h : c + m < thr) :
    processAudio thr (List.replicate m ⟨false, none⟩) (⟨c, true, acc, sts, em⟩, fl)
      = (⟨c + m, true, acc, sts, em⟩, fl) := by
  induction m generalizing c with
  | zero => simp [processAudio]
  | succ m ih =>
    rw [List.replicate_succ, processAudio_cons,
      processFrame_silent_cont thr c acc sts em fl none (by omega)]
    rw [show accumulateSegment acc none = acc from rfl, ih (c + 1) (by omega)]
    congr 2
    omega

/-- Running exactly the silent frames that reach the threshold: the last one
finalizes the utterance, consuming one scripted `flush_final` result and
resetting the accumulator state. -/
theorem run_silent_endpoint (thr k c : Nat) (acc sts em : List String)
    (f : Option String) (fl : List (Option String)) (h : c + (k + 1) = thr) :
    processAudio thr (List.replicate (k + 1) ⟨false, none⟩) (⟨c, true, acc, sts, em⟩, f :: fl)
      = (⟨0, false, [], sts, emitText em (finalText acc f)⟩, fl) := by
  rw [List.replicate_succ', processAudio_append,
    run_silent_pre thr k c acc sts em (f :: fl) (by omega)]
  rw [processAudio_cons, processAudio_nil,
    processFrame_silent_final thr (c + k) acc sts em f fl none (by omega)]
  rw [show accumulateSegment acc none = acc from rfl]

/-- C1: for every scripted stream of N ≥ 1 speech-classified frames with no
segment text, followed by exactly `silenceThreshold ≥ 1` non-speech frames,
with `flush_final` scripted to return "hello": the loop fires the transcription
callback exactly once, with text "hello", and afterwards the accumulator is
empty, `in_utterance` is false and the silence run length is 0 (the statuses
are the per-speech-frame "listening" notifications). -/
theorem c1_endpointing_correct (n t : Nat) :
    processAudio (t + 1)
      (List.replicate (n + 1) ⟨true, none⟩ ++ List.replicate (t + 1) ⟨false, none⟩)
      (initLoopState, [some "hello"])
    = (⟨0, false, [], List.replicate (n + 1) "listening", ["hello"]⟩, []) := by
  rw [processAudio_append, show initLoopState = ⟨0, false, [], [], []⟩ from rfl,
    run_speech, run_silent_endpoint (t + 1) t 0 [] _ [] (some "hello") [] (by omega)]
  rw [show emitText [] (finalText [] (some "hello")) = ["hello"] from by decide]
  simp

/-- Running any number (possibly zero) of segment-free speech frames from an
arbitrary state. -/
theorem run_speech_any (thr n cnt : Nat) (u : Bool) (acc sts em : List String)
    (fl : List (Option String)) :
    processAudio thr (List.replicate n ⟨true, none⟩) (⟨cnt, u, acc, sts, em⟩, fl)
      = ((if n = 0 then ⟨cnt, u, acc, sts, em⟩
          else ⟨0, true, acc, sts ++ List.replicate n "listening", em⟩), fl) := by
  cases n with
  | zero => simp [processAudio]
  | succ n => rw [run_speech]; simp

/-- The composed C3 scenario after any leading speech frames: a segment "one",
a gap, a segment "two", a gap, then the endpointing silence run with an empty
flush; only "one two" is ever emitted. -/
theorem c3_tail (thr g₂ g₃ t cnt : Nat) (u : Bool) (sts : List String)
    (h : thr = t + 1) :
    (processAudio thr
      (⟨true, some "one"⟩ :: (List.replicate g₂ ⟨true, none⟩ ++
        (⟨true, some "two"⟩ :: (List.replicate g₃ ⟨true, none⟩ ++
          List.replicate (t + 1) ⟨false, none⟩))))
      (⟨cnt, u, [], sts, []⟩, [some ""])).1.emitted = ["one two"] := by
  subst h
  rw [processAudio_cons, processFrame_speech,
    show accumulateSegment [] (some "one") = ["one"] from by decide,
    processAudio_append, run_speech_active,
    processAudio_cons, processFrame_speech,
    show accumulateSegment ["one"] (some "two") = ["one", "two"] from by decide,
    processAudio_append, run_speech_active,
    run_silent_endpoint (t + 1) t 0 _ _ _ (some "") [] (by omega),
    show emitText [] (finalText ["one", "two"] (some "")) = ["one two"] from by decide]

/-- C3: in an utterance where `accept_chunk` yields "one" and, after an
arbitrary gap, "two" before the endpoint, and `flush_final` yields the empty
string at the endpoint, the text handed to the transcription callback is
exactly "one two": the accumulated segments are joined with single spaces,
stripped, and the empty flush result contributes nothing. The leading and
intermediate gaps `a`, `b`, `c` of segment-free speech frames are arbitrary. -/
theorem c3_multi_segment_join (a b c t : Nat) :
    (processAudio (t + 1)
      (List.replicate a ⟨true, none⟩ ++
        (⟨true, some "one"⟩ :: (List.replicate b ⟨true, none⟩ ++
          (⟨true, some "two"⟩ :: (List.replicate c ⟨true, none⟩ ++
            List.replicate (t + 1) ⟨false, none⟩)))))
      (initLoopState, [some ""])).1.emitted = ["one two"] := by
  rw [processAudio_append, show initLoopState = ⟨0, false, [], [], []⟩ from rfl,
    run_speech_any]
  by_cases ha : a = 0
  · rw [if_pos ha]
    exact c3_tail (t + 1) b c t 0 false [] rfl
  · rw [if_neg ha]
    exact c3_tail (t + 1) b c t 0 true (List.replicate a "listening") rfl

/-- One loop iteration changes the transcription-callback history exactly at an
endpoint, and then only by the single joined, stripped utterance text when that
text is nonempty. -/
theorem processFrame_emitted_eq (thr : Nat) (st : LoopState)
    (fl : List (Option String)) (f : Frame) :
    (processFrame thr (st, fl) f).1.emitted
      = st.emitted ++
        (if endpointReached thr st f then
           (if finalText (accumulateSegment st.accumulated f.segment) (fl.headD none) = ""
            then [] else [finalText (accumulateSegment st.accumulated f.segment) (fl.headD none)])
         else []) := by
  obtain ⟨cnt, u, acc, sts, em⟩ := st
  obtain ⟨sp, seg⟩ := f
  cases sp with
  | true => simp [processFrame, endpointReached]
  | false =>
    cases u with
    | false => simp [processFrame, endpointReached]
    | true =>
      by_cases h : thr ≤ cnt + 1
      · simp [processFrame, endpointReached, h, emitText]
        split <;> simp
      · simp [processFrame, endpointReached, h]

/-- Nonempty emissions are preserved by one iteration. -/
theorem processFrame_emitted_nonempty (thr : Nat) (st : LoopState)
    (fl : List (Option String)) (f : Frame)
    (h : ∀ s ∈ st.emitted, s ≠ "") :
    ∀ s ∈ (processFrame thr (st, fl) f).1.emitted, s ≠ "" := by
  intro s hs
  rw [processFrame_emitted_eq] at hs
  rcases List.mem_append.mp hs with h1 | h2
  · exact h s h1
  · split at h2
    · split at h2
      · simp at h2
      · rename_i hne
        simp only [List.mem_singleton] at h2
        exact h2 ▸ hne
    · simp at h2

/-- Every text in the emission history of a whole run is nonempty, given that
the starting history only holds nonempty texts. -/
theorem processAudio_emitted_nonempty (thr : Nat) (frames : List Frame)
    (st : LoopState) (fl : List (Option String))
    (h : ∀ s ∈ st.emitted, s ≠ "") :
    ∀ s ∈ (processAudio thr frames (st, fl)).1.emitted, s ≠ "" := by
  induction frames generalizing st fl with
  | nil => exact h
  | cons f fs ih =>
    rw [processAudio_cons]
    rcases hp : processFrame thr (st, fl) f with ⟨st', fl'⟩
    have h' : ∀ s ∈ st'.emitted, s ≠ "" := by
      have := processFrame_emitted_nonempty thr st fl f h
      rw [hp] at this
      exact this
    exact ih st' fl' h'

/-- C4: the transcription callback fires exactly once per finalized utterance —
within one loop iteration the emission history is unchanged unless that
iteration reaches the endpoint, in which case it grows by exactly the one
joined and stripped utterance text, and only when that text is nonempty — and
consequently no run of the loop ever invokes the callback with an empty string. -/
theorem c4_transcription_callback_contract :
    (∀ (thr : Nat) (st : LoopState) (fl : List (Option String)) (f : Frame),
      (processFrame thr (st, fl) f).1.emitted
        = st.emitted ++
          (if endpointReached thr st f then
             (if finalText (accumulateSegment st.accumulated f.segment) (fl.headD none) = ""
              then [] else [finalText (accumulateSegment st.accumulated f.segment) (fl.headD none)])
           else []))
    ∧ (∀ (thr : Nat) (frames : List Frame) (fl : List (Option String)) (s : String),
        s ∈ (processAudio thr frames (initLoopState, fl)).1.emitted → s ≠ "") :=
  ⟨processFrame_emitted_eq,
   fun thr frames fl s hs =>
     processAudio_emitted_nonempty thr frames initLoopState fl
       (by intro s hs'; simp [initLoopState] at hs') s hs⟩

/-- Witness for C4: a concrete run emitting "hi" — the hypothesis of the
second conjunct holds there and the conclusion is the expected nonemptiness. -/
theorem c4_transcription_callback_contract_witness : ("hi" : String) ≠ "" :=
  c4_transcription_callback_contract.2 1 [⟨true, none⟩, ⟨false, none⟩] [some "hi"] "hi"
    (by decide)

/-- C2 fails as stated: at `silence_timeout_ms = 2000`, `chunk_size = 512`,
`sample_rate = 16000` the frame duration is 32 ms, so the spec's formula gives
62, but the code computes `2000 // 64 = 31` with its hard-coded 64 ms. -/
theorem c2_threshold_counterexample :
    silenceThresholdCode ⟨2000, 512, 16000⟩ ≠ silenceThresholdSpec ⟨2000, 512, 16000⟩ := by
  decide

/-- C2 (amended): the endpoint silence threshold is `silence_timeout_ms // 64`
with the 64 ms per-chunk duration hard-coded — it ignores the configured
`chunk_size` and `sample_rate` entirely — and it agrees with the spec's
`silence_timeout_ms / frame_duration_ms` exactly when the configured frame
duration is 64 ms, as for the default 1024 samples at 16 kHz. -/
theorem c2_threshold_hardcoded (ms cs₁ r₁ cs₂ r₂ : Nat) :
    silenceThresholdCode ⟨ms, cs₁, r₁⟩ = silenceThresholdCode ⟨ms, cs₂, r₂⟩
    ∧ ∀ c : Config, frameDurationMsSpec c = 64 →
        silenceThresholdCode c = silenceThresholdSpec c := by
  refine ⟨rfl, fun c h => ?_⟩
  rw [silenceThresholdSpec, h, silenceThresholdCode]

/-- Witness for C2 (amended): the default configuration (1024 samples at
16 kHz, 2000 ms timeout) has a 64 ms frame duration, where both formulas give
31 frames. -/
theorem c2_threshold_hardcoded_witness :
    silenceThresholdCode ⟨2000, 1024, 16000⟩ = silenceThresholdSpec ⟨2000, 1024, 16000⟩ :=
  (c2_threshold_hardcoded 2000 1024 16000 512 8000).2 ⟨2000, 1024, 16000⟩ (by decide)

/-- C5 fails as stated: `stop()` notifies "stopped" unconditionally, so the
second of two consecutive stops appends a second "stopped" notification — an
observable effect. Concretely, from a freshly started agent. -/
theorem c5_double_stop_counterexample :
    Agent.stop (Agent.stop (Agent.start Agent.initial))
      ≠ Agent.stop (Agent.start Agent.initial) := by
  decide

/-- C5 (amended): a second consecutive `stop()` never raises and leaves the
running flag, listening flag and capture device unchanged, but it is not a
complete no-op: it emits one more (redundant) "stopped" status notification. -/
theorem c5_double_stop (a : Agent) :
    (a.stop.stop.is_running = a.stop.is_running)
    ∧ (a.stop.stop.is_listening = a.stop.is_listening)
    ∧ (a.stop.stop.capRecording = a.stop.capRecording)
    ∧ a.stop.stop.statuses = a.stop.statuses ++ ["stopped"] := by
  obtain ⟨r, l, cap, sts⟩ := a
  cases cap <;> simp [Agent.stop, Agent.capStop]

/-- C9: `toggle()` from a non-running (stopped) agent has exactly the effect of
`start()`; while running and listening it moves to paused and notifies
"paused"; while running and paused it moves to listening and notifies
"listening" — in both running cases the agent keeps running. -/
theorem c9_toggle_transitions (cap : Bool) (sts : List String) :
    (∀ l : Bool, Agent.toggle ⟨false, l, cap, sts⟩ = Agent.start ⟨false, l, cap, sts⟩)
    ∧ Agent.toggle ⟨true, true, cap, sts⟩ = Agent.pause ⟨true, true, cap, sts⟩
    ∧ (Agent.toggle ⟨true, true, cap, sts⟩).is_running = true
    ∧ (Agent.toggle ⟨true, true, cap, sts⟩).is_listening = false
    ∧ (Agent.toggle ⟨true, true, cap, sts⟩).statuses = sts ++ ["paused"]
    ∧ Agent.toggle ⟨true, false, cap, sts⟩ = Agent.resume ⟨true, false, cap, sts⟩
    ∧ (Agent.toggle ⟨true, false, cap, sts⟩).is_running = true
    ∧ (Agent.toggle ⟨true, false, cap, sts⟩).is_listening = true
    ∧ (Agent.toggle ⟨true, false, cap, sts⟩).statuses = sts ++ ["listening"] := by
  refine ⟨fun l => rfl, rfl, rfl, rfl, ?_, rfl, rfl, rfl, ?_⟩
  · simp [Agent.toggle, Agent.pause]
  · simp [Agent.toggle, Agent.resume]

/-- Folding `add` over any chunk list keeps the capacity fixed and leaves the
buffer holding exactly the suffix of all frames seen that fits the capacity. -/
theorem AudioBuffer.foldl_add (cs : List Chunk) (b : AudioBuffer)
    (h : b.buffer.length ≤ b.max_frames) :
    (cs.foldl AudioBuffer.add b).max_frames = b.max_frames
    ∧ (cs.foldl AudioBuffer.add b).buffer
        = (b.buffer ++ cs).drop (b.buffer.length + cs.length - b.max_frames) := by
  induction cs generalizing b with
  | nil =>
    refine ⟨rfl, ?_⟩
    simp [Nat.sub_eq_zero_of_le h]
  | cons c cs ih =>
    rw [List.foldl_cons]
    have h2 : (AudioBuffer.add b c).max_frames = b.max_frames := rfl
    by_cases hlt : b.buffer.length < b.max_frames
    · have h1 : (AudioBuffer.add b c).buffer = b.buffer ++ [c] := by
        simp only [AudioBuffer.add]
        rw [if_neg (by simp; omega)]
      obtain ⟨hm, hbuf⟩ := ih (AudioBuffer.add b c) (by rw [h1, h2]; simp; omega)
      refine ⟨by rw [hm, h2], ?_⟩
      rw [hbuf, h1, h2]
      congr 1
      · simp; omega
      · simp
    · have heq : b.buffer.length = b.max_frames := by omega
      have h1 : (AudioBuffer.add b c).buffer = (b.buffer ++ [c]).tail := by
        simp only [AudioBuffer.add]
        rw [if_pos (by simp; omega)]
      have hlen : (AudioBuffer.add b c).buffer.length = b.max_frames := by
        rw [h1, List.length_tail]; simp; omega
      obtain ⟨hm, hbuf⟩ := ih (AudioBuffer.add b c) (by rw [hlen, h2])
      refine ⟨by rw [hm, h2], ?_⟩
      rw [hbuf, h1, h2]
      rw [show (b.buffer ++ [c]).tail.length + cs.length - b.max_frames = cs.length from by
        simp [List.length_tail]; omega]
      rw [← List.drop_one, ← List.drop_append_of_le_length (by simp), List.drop_drop]
      congr 1
      · simp; omega
      · simp

/-- C6: starting from a fresh `AudioBuffer(max_duration_ms)`, after any sequence
of `add` calls the buffer holds exactly the newest `max_frames`-bounded suffix
of all frames added, in order — so the length never exceeds
`max_duration_ms / 30` (the 30 ms nominal frame duration), and every overflow
evicts exactly the oldest frame: concretely, an `add` to a full buffer with
positive capacity drops the head and appends the new frame at the back. -/
theorem c6_rolling_buffer_invariant :
    (∀ (d : Nat) (cs : List Chunk),
      (cs.foldl AudioBuffer.add (AudioBuffer.init d)).buffer
          = cs.drop (cs.length - d / 30)
      ∧ (cs.foldl AudioBuffer.add (AudioBuffer.init d)).buffer.length ≤ d / 30)
    ∧ (∀ (b : AudioBuffer) (ch : Chunk), b.buffer.length = b.max_frames →
        0 < b.max_frames → (b.add ch).buffer = b.buffer.tail ++ [ch]) := by
  constructor
  · intro d cs
    obtain ⟨-, hbuf⟩ := AudioBuffer.foldl_add cs (AudioBuffer.init d) (by simp [AudioBuffer.init])
    have hb : (cs.foldl AudioBuffer.add (AudioBuffer.init d)).buffer
        = cs.drop (cs.length - d / 30) := by
      rw [hbuf]; simp [AudioBuffer.init]
    refine ⟨hb, ?_⟩
    rw [hb, List.length_drop]
    omega
  · intro b ch hfull hpos
    have hlen1 : 1 ≤ b.buffer.length := by omega
    simp only [AudioBuffer.add]
    rw [if_pos (by simp; omega)]
    rw [← List.drop_one, ← List.drop_one, List.drop_append_of_le_length hlen1]

/-- Witness for C6: a one-slot buffer already holding a frame; adding another
evicts exactly the old one. -/
theorem c6_rolling_buffer_invariant_witness :
    (AudioBuffer.add ⟨60, [[1]], 1⟩ [2]).buffer = [[2]] := by
  have := c6_rolling_buffer_invariant.2 ⟨60, [[1]], 1⟩ [2] (by decide) (by decide)
  simpa using this

namespace AudioCaptureQueue

/-- Trace invariant: the frames already popped followed by the frames still
queued are exactly the starting contents followed by every pushed frame, in
push order. -/
theorem capRun_popped_append_queue (ops : List CapOp) (s : CapState) :
    (capRun ops s).popped ++ (capRun ops s).queue
      = s.popped ++ (s.queue ++ pushedOf ops) := by
  induction ops generalizing s with
  | nil => simp [capRun, pushedOf]
  | cons op ops ih =>
    cases op with
    | push c =>
      rw [show capRun (.push c :: ops) s = capRun ops (capStep s (.push c)) from rfl, ih]
      simp [capStep, push, pushedOf]
    | pop =>
      rw [show capRun (.pop :: ops) s = capRun ops (capStep s .pop) from rfl, ih]
      cases hq : s.queue with
      | nil => simp [capStep, read_chunk, hq, pushedOf]
      | cons x xs => simp [capStep, read_chunk, hq, pushedOf]

/-- C7: over any interleaving of capture-callback appends and `read_chunk`
pops starting from an empty queue, the popped frames followed by the frames
still queued equal exactly the appended frames in append order — so pops
return frames in FIFO order and never return a frame occurrence twice — and
`read_chunk` on an empty queue returns "none" (leaving the queue empty) rather
than blocking, while on a nonempty queue it removes exactly the head. -/
theorem c7_capture_queue_fifo :
    (∀ ops : List CapOp,
      (capRun ops ⟨[], []⟩).popped ++ (capRun ops ⟨[], []⟩).queue = pushedOf ops)
    ∧ read_chunk [] = (none, [])
    ∧ (∀ (x : Chunk) (xs : List Chunk), read_chunk (x :: xs) = (some x, xs)) :=
  ⟨fun ops => by simpa using capRun_popped_append_queue ops ⟨[], []⟩,
   rfl, fun x xs => rfl⟩

end AudioCaptureQueue

/-- A byte buffer of odd length fails int16 decoding, as `np.frombuffer` does. -/
theorem decodeInt16_odd (l : List Nat) (h : l.length % 2 = 1) : decodeInt16 l = none := by
  induction l using decodeInt16.induct with
  | case1 => simp at h
  | case2 x => rfl
  | case3 lo hi rest ih =>
    have hr : rest.length % 2 = 1 := by simp at h; omega
    simp [decodeInt16, ih hr]

namespace VoiceActivityDetector

/-- A decode fault is caught and classified as non-speech. -/
theorem is_speech_decode_none (v : VoiceActivityDetector) (chunk : Chunk)
    (h : decodeInt16 chunk = none) : v.is_speech chunk = false := by
  simp [is_speech, h]

/-- A decoded-but-empty frame is classified as non-speech. -/
theorem is_speech_decode_empty (v : VoiceActivityDetector) (chunk : Chunk)
    (h : decodeInt16 chunk = some []) : v.is_speech chunk = false := by
  simp [is_speech, h]

/-- On a nonempty decoded frame, `is_speech` is the RMS comparison. -/
theorem is_speech_decode_cons (v : VoiceActivityDetector) (chunk : Chunk)
    (s : Int) (rest : List Int) (h : decodeInt16 chunk = some (s :: rest)) :
    v.is_speech chunk
      = rmsExceeds (sumSquares (s :: rest)) (s :: rest).length
          (v.threshold * 32768) := by
  simp [is_speech, h]

/-- The effective threshold after construction is always positive. -/
theorem init_threshold_pos (a : Int) (r : Nat) (t : ℚ) :
    0 < (init a r t).threshold := by
  simp only [init, adjust_threshold]
  split
  · norm_num
  · split
    · norm_num
    · split <;> norm_num

end VoiceActivityDetector

/-- An all-zero sample list has zero energy. -/
theorem sum_sq_zero (samples : List Int) (h : ∀ s ∈ samples, s = 0) :
    sumSquares samples = 0 := by
  induction samples with
  | nil => rfl
  | cons a l ih =>
    rw [sumSquares, h a (List.mem_cons_self a l),
      ih fun s hs => h s (List.mem_cons_of_mem a hs)]
    norm_num

/-- A full-scale sample list (every sample ±32767) has energy
`length · 32767²`. -/
theorem sum_sq_fullscale (samples : List Int)
    (h : ∀ s ∈ samples, s = 32767 ∨ s = -32767) :
    sumSquares samples = (samples.length : ℚ) * 32767 ^ 2 := by
  induction samples with
  | nil => simp [sumSquares]
  | cons a l ih =>
    rw [sumSquares, List.length_cons, ih fun s hs => h s (List.mem_cons_of_mem a hs)]
    rcases h a (List.mem_cons_self a l) with ha | ha <;> rw [ha] <;> push_cast <;> ring

/-- C8: `is_speech` is total and never propagates a failure — an empty frame
yields false; a decode fault (e.g. an odd-length byte buffer) is caught and
yields false; an all-zero frame of any length yields false; a full-scale frame
(every sample ±32767) at aggressiveness 2 yields true; and in general, on any
nonempty decoded frame the result is true iff the frame's RMS, normalized by
the full-scale amplitude 32768, exceeds the configured threshold (stated
squared and multiplied through by the sample count, which is equivalent since
both sides are nonnegative). -/
theorem c8_is_speech_total_energy_gate :
    (∀ (a : Int) (r : Nat) (t : ℚ), (VoiceActivityDetector.init a r t).is_speech [] = false)
    ∧ (∀ (v : VoiceActivityDetector) (chunk : Chunk), decodeInt16 chunk = none →
        v.is_speech chunk = false)
    ∧ (∀ (v : VoiceActivityDetector) (chunk : Chunk), chunk.length % 2 = 1 →
        v.is_speech chunk = false)
    ∧ (∀ (a : Int) (r : Nat) (t : ℚ) (chunk : Chunk) (samples : List Int),
        decodeInt16 chunk = some samples → (∀ s ∈ samples, s = 0) →
        (VoiceActivityDetector.init a r t).is_speech chunk = false)
    ∧ (∀ (r : Nat) (t : ℚ) (chunk : Chunk) (samples : List Int),
        decodeInt16 chunk = some samples → samples ≠ [] →
        (∀ s ∈ samples, s = 32767 ∨ s = -32767) →
        (VoiceActivityDetector.init 2 r t).is_speech chunk = true)
    ∧ (∀ (a : Int) (r : Nat) (t : ℚ) (chunk : Chunk) (samples : List Int),
        decodeInt16 chunk = some samples → samples ≠ [] →
        ((VoiceActivityDetector.init a r t).is_speech chunk = true ↔
          ((VoiceActivityDetector.init a r t).threshold * 32768) ^ 2 * (samples.length : ℚ)
            < sumSquares samples)) := by
  refine ⟨fun a r t => rfl, VoiceActivityDetector.is_speech_decode_none,
    fun v chunk h => VoiceActivityDetector.is_speech_decode_none v chunk (decodeInt16_odd chunk h),
    ?_, ?_, ?_⟩
  · intro a r t chunk samples hdec hzero
    have hc : (0 : ℚ) < (VoiceActivityDetector.init a r t).threshold * 32768 :=
      mul_pos (VoiceActivityDetector.init_threshold_pos a r t) (by norm_num)
    cases samples with
    | nil => exact VoiceActivityDetector.is_speech_decode_empty _ chunk hdec
    | cons s rest =>
      rw [VoiceActivityDetector.is_speech_decode_cons _ chunk s rest hdec,
        rmsExceeds, if_neg (not_lt.mpr (le_of_lt hc)), sum_sq_zero _ hzero]
      simp only [decide_eq_false_iff_not]
      exact not_lt.mpr (by positivity)
  · intro r t chunk samples hdec hne hfs
    have hc : (0 : ℚ) < (VoiceActivityDetector.init 2 r t).threshold * 32768 :=
      mul_pos (VoiceActivityDetector.init_threshold_pos 2 r t) (by norm_num)
    cases samples with
    | nil => exact absurd rfl hne
    | cons s rest =>
      rw [VoiceActivityDetector.is_speech_decode_cons _ chunk s rest hdec,
        rmsExceeds, if_neg (not_lt.mpr (le_of_lt hc)), sum_sq_fullscale _ hfs]
      simp only [decide_eq_true_eq]
      have hthr : (VoiceActivityDetector.init 2 r t).threshold = 8 / 1000 := rfl
      rw [hthr]
      have hn : (0 : ℚ) < (((s :: rest).length : Nat) : ℚ) := by
        exact_mod_cast Nat.succ_pos rest.length
      calc (8 / 1000 * 32768 : ℚ) ^ 2 * (((s :: rest).length : Nat) : ℚ)
          < 32767 ^ 2 * (((s :: rest).length : Nat) : ℚ) :=
            mul_lt_mul_of_pos_right (by norm_num) hn
        _ = (((s :: rest).length : Nat) : ℚ) * 32767 ^ 2 := by ring
  · intro a r t chunk samples hdec hne
    have hc : (0 : ℚ) < (VoiceActivityDetector.init a r t).threshold * 32768 :=
      mul_pos (VoiceActivityDetector.init_threshold_pos a r t) (by norm_num)
    cases samples with
    | nil => exact absurd rfl hne
    | cons s rest =>
      rw [VoiceActivityDetector.is_speech_decode_cons _ chunk s rest hdec,
        rmsExceeds, if_neg (not_lt.mpr (le_of_lt hc))]
      simp only [decide_eq_true_eq]

/-- Witness for C8: a one-byte frame (decode fault), a six-byte all-zero frame
and a full-scale one-sample frame at aggressiveness 2. -/
theorem c8_is_speech_total_energy_gate_witness :
    (VoiceActivityDetector.init 1 16000 (1 / 100)).is_speech [0] = false
    ∧ (VoiceActivityDetector.init 1 16000 (1 / 100)).is_speech [0, 0, 0, 0, 0, 0] = false
    ∧ (VoiceActivityDetector.init 2 16000 (1 / 100)).is_speech [255, 127] = true :=
  ⟨c8_is_speech_total_energy_gate.2.2.1 _ [0] (by decide),
   c8_is_speech_total_energy_gate.2.2.2.1 1 16000 (1 / 100) [0, 0, 0, 0, 0, 0] [0, 0, 0]
     (by decide) (by decide),
   c8_is_speech_total_energy_gate.2.2.2.2.1 16000 (1 / 100) [255, 127] [32767]
     (by decide) (by decide) (by decide)⟩

/-- C10: the `threshold` constructor argument has no effect — two detectors
built with the same aggressiveness and any two threshold arguments are equal,
so `is_speech` agrees on every input — because `_adjust_threshold` overwrites
the stored threshold purely from the aggressiveness level
(0 ↦ 0.002, 1 ↦ 0.005, 2 ↦ 0.008, anything else ↦ 0.01). -/
theorem c10_threshold_param_ignored :
    (∀ (a : Int) (r : Nat) (t₁ t₂ : ℚ),
        VoiceActivityDetector.init a r t₁ = VoiceActivityDetector.init a r t₂)
    ∧ (∀ (a : Int) (r : Nat) (t₁ t₂ : ℚ) (chunk : Chunk),
        (VoiceActivityDetector.init a r t₁).is_speech chunk
          = (VoiceActivityDetector.init a r t₂).is_speech chunk)
    ∧ (∀ (r : Nat) (t : ℚ), (VoiceActivityDetector.init 0 r t).threshold = 2 / 1000)
    ∧ (∀ (r : Nat) (t : ℚ), (VoiceActivityDetector.init 1 r t).threshold = 5 / 1000)
    ∧ (∀ (r : Nat) (t : ℚ), (VoiceActivityDetector.init 2 r t).threshold = 8 / 1000)
    ∧ (∀ (a : Int) (r : Nat) (t : ℚ), a ≠ 0 → a ≠ 1 → a ≠ 2 →
        (VoiceActivityDetector.init a r t).threshold = 1 / 100) := by
  refine ⟨fun a r t₁ t₂ => rfl, fun a r t₁ t₂ chunk => rfl,
    fun r t => rfl, fun r t => rfl, fun r t => rfl, ?_⟩
  intro a r t h0 h1 h2
  simp [VoiceActivityDetector.init, VoiceActivityDetector.adjust_threshold, h0, h1, h2]

/-- Witness for C10: aggressiveness 5 (an "other" level) yields the 0.01
threshold regardless of the constructor argument. -/
theorem c10_threshold_param_ignored_witness :
    (VoiceActivityDetector.init 5 16000 (123 / 7)).threshold = 1 / 100 :=
  c10_threshold_param_ignored.2.2.2.2.2 5 16000 (123 / 7)
    (by decide) (by decide) (by decide)
